import Mathlib

/-!
Verification of the credential subsystem of clayzim/http-servers.

Shallow embedding conventions:
- Go byte strings (passwords, emails, salts, derived keys) are `List Nat`.
- The argon2id key-derivation function itself is an external library
  dependency (github.com/alexedwards/argon2id); it is modelled as an
  abstract parameter `KDF` whose `idKey` field stands for argon2.IDKey.
  The library's control flow around it (CreateHash, ComparePasswordAndHash)
  is embedded faithfully.
- Encoded digest strings either decode to (params, salt, key) or fail to
  parse; they are modelled by the inductive `HashStr`.
- Randomness is passed explicitly: `rnd n` is the result of requesting `n`
  random bytes from the library's fallible source (generateRandomBytes),
  and `randRead n` is crypto/rand.Read filling an n-byte buffer (which the
  source comments as always succeeding).
- Go `error` results become `Option` values (`none` = nil error, or
  `none` = failure for value-returning calls, as noted per definition).
-/

namespace HttpServers

/-- argon2id.Params: the tunable parameter record passed to CreateHash. -/
structure Params where
  memory : Nat
  iterations : Nat
  parallelism : Nat
  saltLength : Nat
  keyLength : Nat
  deriving DecidableEq, Repr

/-- Abstract model of the argon2 key-derivation primitive: `idKey password
salt params` stands for argon2.IDKey(password, salt, ...). It is a pure
deterministic function; nothing else about it is assumed. -/
structure KDF where
  idKey : List Nat → List Nat → Params → List Nat

/-- An encoded password-digest string: either it decodes to the parameter
record, salt and derived key it embeds, or it is malformed and fails to
parse (argon2id.DecodeHash error). -/
inductive HashStr where
  | enc (params : Params) (salt : List Nat) (key : List Nat)
  | malformed (raw : List Nat)
  deriving DecidableEq, Repr

/-- The one error class the compare path of the library reports besides a
plain non-match: the digest could not be decoded (invalid hash format or
incompatible variant/version). -/
inductive CompareErr where
  | invalidHash
  deriving DecidableEq, Repr

/-- argon2id.CreateHash(password, params): draw params.SaltLength random
bytes (may fail), derive the key, and encode params+salt+key into the
digest string. `none` models the (salt-generation) error return. -/
def createHash (kdf : KDF) (rnd : Nat → Option (List Nat))
    (password : List Nat) (params : Params) : Option HashStr :=
  match rnd params.saltLength with
  | none => none
  | some salt => some (HashStr.enc params salt (kdf.idKey password salt params))

/-- argon2id.ComparePasswordAndHash(password, hash) -> (match, err): decode
the digest (on failure: (false, err)); otherwise re-derive the key from the
password using the digest's own embedded params and salt and compare it
against the digest's key material (constant-time in the source; equality
here), returning (match, nil). -/
def comparePasswordAndHash (kdf : KDF) (password : List Nat)
    (hash : HashStr) : Bool × Option CompareErr :=
  match hash with
  | HashStr.malformed _ => (false, some CompareErr.invalidHash)
  | HashStr.enc params salt key =>
      (decide (kdf.idKey password salt params = key), none)

/-- internal/auth constant: memory cost in KiB (`const memory uint32 = 19 * 1024`). -/
def memory : Nat := 19 * 1024

/-- internal/auth constant: `const iterations uint32 = 2`. -/
def iterations : Nat := 2

/-- internal/auth constant: `const parallelism uint8 = 1`. -/
def parallelism : Nat := 1

/-- internal/auth constant: `const saltLength uint32 = 16`. -/
def saltLength : Nat := 16

/-- internal/auth constant: `const hashLength uint32 = 32`. -/
def hashLength : Nat := 32

/-- internal/auth.HashPassword: builds the fixed argon2id.Params record
from the package constants and calls argon2id.CreateHash with it. -/
def HashPassword (kdf : KDF) (rnd : Nat → Option (List Nat))
    (password : List Nat) : Option HashStr :=
  createHash kdf rnd password
    (Params.mk memory iterations parallelism saltLength hashLength)

/-- The error values internal/auth.CheckPassword can return:
`mismatch` is ErrMismatchedHashAndPassword; `lib e` is an error value
propagated unchanged from argon2id.ComparePasswordAndHash. -/
inductive AuthErr where
  | mismatch
  | lib (e : CompareErr)
  deriving DecidableEq, Repr

/-- internal/auth.CheckPassword(password, hash): calls
ComparePasswordAndHash; if match is true it returns that call's err
verbatim, otherwise it returns ErrMismatchedHashAndPassword. `none` models
a nil error (match). -/
def CheckPassword (kdf : KDF) (password : List Nat)
    (hash : HashStr) : Option AuthErr :=
  let r := comparePasswordAndHash kdf password hash
  if r.fst then r.snd.map AuthErr.lib
  else some AuthErr.mismatch

/-- internal/auth.Initialize: fills the 32-byte DummyPassword buffer from
crypto/rand.Read (modelled total, per the source comment that it always
succeeds), then sets DummyHash := HashPassword(string(DummyPassword)).
On a HashPassword error the source calls log.Fatal, terminating the
process; `none` models that fatal exit. -/
def Initialize (kdf : KDF) (randRead : Nat → List Nat)
    (rnd : Nat → Option (List Nat)) : Option HashStr :=
  HashPassword kdf rnd (randRead 32)

/-- database.User row (sqlc-generated model referenced by the handlers):
uuid and timestamps are abstracted to Nat, email to a byte string, and the
stored hashed_password column to a `HashStr`. -/
structure User where
  id : Nat
  createdAt : Nat
  updatedAt : Nat
  email : List Nat
  hashedPassword : HashStr
  deriving DecidableEq, Repr

/-- The Go zero value of database.User, which GetUserByEmail yields
alongside a non-nil error (the zero-value string "" fails to decode as a
digest, hence `malformed []`). -/
def User.zero : User :=
  User.mk 0 0 0 [] (HashStr.malformed [])

/-- ResponseUser: the JSON output model for users; by design it carries
only id, created_at, updated_at and email, never the password hash. -/
structure ResponseUser where
  id : Nat
  createdAt : Nat
  updatedAt : Nat
  email : List Nat
  deriving DecidableEq, Repr

/-- ResponseFrom(dbUser): copies the four public fields of the row into
the response model, dropping HashedPassword. -/
def ResponseFrom (dbUser : User) : ResponseUser :=
  ResponseUser.mk dbUser.id dbUser.createdAt dbUser.updatedAt dbUser.email

/-- The response-message string literals the modelled handlers emit.
`userMustProvideEmailAndPassword` is "User must provide email and password",
`incorrectEmailOrPassword` is "Incorrect email or password",
`failedToHashUsersPassword` is "Failed to hash user's password",
`failedToCreateUser` is "Failed to create user". -/
inductive Msg where
  | userMustProvideEmailAndPassword
  | incorrectEmailOrPassword
  | failedToHashUsersPassword
  | failedToCreateUser
  deriving DecidableEq, Repr

/-- The JSON body of a handler response: either an error envelope
(respondWithError) or a serialized ResponseUser (respondWithJSON). -/
inductive RespBody where
  | err (msg : Msg)
  | user (u : ResponseUser)
  deriving DecidableEq, Repr

/-- An HTTP response as the handlers produce it: status code plus body. -/
structure Response where
  status : Nat
  body : RespBody
  deriving DecidableEq, Repr

/-- respondWithError(w, code, msg): writes the status code and the JSON
error envelope. -/
def respondWithError (code : Nat) (msg : Msg) : Response :=
  Response.mk code (RespBody.err msg)

/-- respondWithJSON(w, code, in) as used with a ResponseUser payload. -/
def respondWithJSON (code : Nat) (u : ResponseUser) : Response :=
  Response.mk code (RespBody.user u)

/-- The two kinds of non-nil error cfg.db.GetUserByEmail can return:
sql.ErrNoRows (no such account) or any other failure such as the store
being unavailable. -/
inductive DBErr where
  | noRows
  | other
  deriving DecidableEq, Repr

/-- What the user store holds for the queried email: a row, or a failure
of one of the two kinds. -/
inductive LookupResult where
  | found (u : User)
  | failure (e : DBErr)
  deriving DecidableEq, Repr

/-- cfg.db.GetUserByEmail: returns the row and a nil error on success, or
the zero-value row and the non-nil error on failure. -/
def getUserByEmail : LookupResult → User × Option DBErr
  | LookupResult.found u => (u, none)
  | LookupResult.failure e => (User.zero, some e)

/-- Observable execution record of one login handler run: the response
written, the emails passed to GetUserByEmail (in order), and the digests
passed to CheckPassword (in order) — one entry per KDF comparison. -/
structure LoginTrace where
  response : Response
  lookups : List (List Nat)
  checkedHashes : List HashStr
  deriving DecidableEq, Repr

/-- The login handler (serverState.login), modelled after the request body
has been parsed into email and password:
require both non-empty (else 400); look up the user by email; on ANY
lookup error select auth.DummyHash, else the stored digest; call
auth.CheckPassword on the selected digest; if the lookup errored or the
check errored respond 401 "Incorrect email or password", else respond 200
with ResponseFrom(dbUser). -/
def login (kdf : KDF) (dummyHash : HashStr) (store : LookupResult)
    (email password : List Nat) : LoginTrace :=
  if email = [] ∨ password = [] then
    LoginTrace.mk (respondWithError 400 Msg.userMustProvideEmailAndPassword) [] []
  else
    let lr := getUserByEmail store
    let dbUser := lr.fst
    let emailErr := lr.snd
    let hash := match emailErr with
      | some _ => dummyHash
      | none => dbUser.hashedPassword
    let passErr := CheckPassword kdf password hash
    if emailErr.isSome ∨ passErr.isSome then
      LoginTrace.mk (respondWithError 401 Msg.incorrectEmailOrPassword) [email] [hash]
    else
      LoginTrace.mk (respondWithJSON 200 (ResponseFrom dbUser)) [email] [hash]

/-- database.CreateUserParams: the row the handler asks the store to
insert (email plus the hashed password). -/
structure CreateUserParams where
  email : List Nat
  hashedPassword : HashStr
  deriving DecidableEq, Repr

/-- Observable execution record of one createUser handler run: the
response, the passwords passed to auth.HashPassword, and the
CreateUserParams passed to the store's CreateUser (the attempted writes). -/
structure CreateUserTrace where
  response : Response
  hashCalls : List (List Nat)
  writes : List CreateUserParams
  deriving DecidableEq, Repr

/-- The createUser handler (serverState.createUser), modelled after body
parsing: require non-empty email and password (else 400); hash the
password (on error: 500 "Failed to hash user's password", nothing
stored); call cfg.db.CreateUser with email and hash (on error: 500
"Failed to create user"); else 201 with ResponseFrom(dbUser). The store's
reply is the collaborator function `db`. -/
def createUser (kdf : KDF) (rnd : Nat → Option (List Nat))
    (db : CreateUserParams → Option User)
    (email password : List Nat) : CreateUserTrace :=
  if email = [] ∨ password = [] then
    CreateUserTrace.mk (respondWithError 400 Msg.userMustProvideEmailAndPassword) [] []
  else
    match HashPassword kdf rnd password with
    | none =>
        CreateUserTrace.mk (respondWithError 500 Msg.failedToHashUsersPassword) [password] []
    | some hash =>
        let p := CreateUserParams.mk email hash
        match db p with
        | none =>
            CreateUserTrace.mk (respondWithError 500 Msg.failedToCreateUser) [password] [p]
        | some dbUser =>
            CreateUserTrace.mk (respondWithJSON 201 (ResponseFrom dbUser)) [password] [p]

/-- One inbound login request together with what the store holds for its
email at that moment. -/
structure LoginRequest where
  store : LookupResult
  email : List Nat
  password : List Nat
  deriving DecidableEq, Repr

/-- Modelled from the spec: the final main.go that wires the auth package
into the serving phase is absent from the source snapshot (src/main.go is
an earlier revision without auth). Per the spec, InitializeAuth is invoked
exactly once before the HTTP-serving phase begins and must complete
successfully or the process must not begin serving; afterwards every login
request is handled with the one resulting dummy digest. `none` models the
process terminating at startup instead of serving. -/
def serverRun (kdf : KDF) (randRead : Nat → List Nat)
    (rnd : Nat → Option (List Nat))
    (requests : List LoginRequest) : Option (List LoginTrace) :=
  match Initialize kdf randRead rnd with
  | none => none
  | some dummyHash =>
      some (requests.map (fun rq => login kdf dummyHash rq.store rq.email rq.password))

/-! Concrete instances used to evaluate the model on closed inputs. -/

/-- A concrete stand-in for the argon2 primitive, used only to evaluate
the embedding on closed inputs; its output length honours the requested
key length. -/
def toyKDF : KDF :=
  KDF.mk (fun password salt params =>
    List.replicate params.keyLength (password.sum + 2 * salt.sum))

/-- A concrete random source that always yields `n` bytes of value 7. -/
def toyRnd : Nat → Option (List Nat) := fun n => some (List.replicate n 7)

/-- A concrete random source that always fails. -/
def toyRndFail : Nat → Option (List Nat) := fun _ => none

/-- A concrete crypto/rand.Read stand-in yielding `n` bytes of value 3. -/
def toyRandRead : Nat → List Nat := fun n => List.replicate n 3

/-- Small concrete parameter record for closed evaluation. -/
def toyParams : Params := Params.mk 19 2 1 1 4

/-- A concrete well-formed dummy digest. -/
def toyDummyHash : HashStr := HashStr.enc toyParams [9] [0, 0, 0, 0]

/-- A concrete stored user whose digest matches password [2] under
`toyKDF` (key re-derived from salt [5]). -/
def toyUser1 : User :=
  User.mk 10 11 12 [97] (HashStr.enc toyParams [5] (toyKDF.idKey [2] [5] toyParams))

/-- A second concrete user identical to `toyUser1` except for the stored
digest (salt [6]), which also matches password [2] under `toyKDF`. -/
def toyUser2 : User :=
  User.mk 10 11 12 [97] (HashStr.enc toyParams [6] (toyKDF.idKey [2] [6] toyParams))

/-! Shared helper lemmas about the login handler. -/

/-- On non-empty credentials and any lookup failure (no-rows or other),
login checks the dummy digest once and answers 401 with the single
rejection message. -/
lemma login_lookup_failure_eq (kdf : KDF) (dummyHash : HashStr) (e : DBErr)
    (email password : List Nat) (he : email ≠ []) (hp : password ≠ []) :
    login kdf dummyHash (LookupResult.failure e) email password =
      LoginTrace.mk (respondWithError 401 Msg.incorrectEmailOrPassword)
        [email] [dummyHash] := by
  unfold login
  rw [if_neg (by tauto)]
  simp [getUserByEmail]

/-- On non-empty credentials and a successful lookup, login checks the
stored digest once and answers 200 with the public user fields when
CheckPassword reports a match, and 401 otherwise. -/
lemma login_found_eq (kdf : KDF) (dummyHash : HashStr) (u : User)
    (email password : List Nat) (he : email ≠ []) (hp : password ≠ []) :
    login kdf dummyHash (LookupResult.found u) email password =
      (if CheckPassword kdf password u.hashedPassword = none then
        LoginTrace.mk (respondWithJSON 200 (ResponseFrom u)) [email] [u.hashedPassword]
      else
        LoginTrace.mk (respondWithError 401 Msg.incorrectEmailOrPassword)
          [email] [u.hashedPassword]) := by
  unfold login
  rw [if_neg (by tauto)]
  cases hc : CheckPassword kdf password u.hashedPassword with
  | none => simp [getUserByEmail, hc]
  | some e => simp [getUserByEmail, hc]

/-! Claim C4. -/

/-- C4 counterexample: on a malformed digest payload, CheckPassword
returns ErrMismatchedHashAndPassword itself — not a parse/format error
distinct from it, because the source's `else` branch returns the mismatch
error whenever match is false, including when ComparePasswordAndHash
failed to decode the digest. -/
theorem checkPassword_malformed_cex :
    CheckPassword toyKDF [0] (HashStr.malformed []) = some AuthErr.mismatch ∧
    AuthErr.mismatch ≠ AuthErr.lib CompareErr.invalidHash := by
  decide

/-- C4 (amended): CheckPassword returns nil exactly when the comparison
matches; in every other case — a well-formed comparison yielding false OR
a malformed digest payload — it returns the one MismatchError; parse and
format errors are collapsed into MismatchError, never surfaced
distinctly. -/
theorem checkPassword_nil_iff_match (kdf : KDF) (password : List Nat)
    (hash : HashStr) :
    (CheckPassword kdf password hash = none ↔
      (comparePasswordAndHash kdf password hash).fst = true) ∧
    (CheckPassword kdf password hash = none ∨
      CheckPassword kdf password hash = some AuthErr.mismatch) := by
  cases hash with
  | malformed raw => simp [CheckPassword, comparePasswordAndHash]
  | enc params salt key =>
      by_cases hk : kdf.idKey password salt params = key
      · simp [CheckPassword, comparePasswordAndHash, hk]
      · simp [CheckPassword, comparePasswordAndHash, hk]

/-! Claim C6. -/

/-- C6: whenever HashPassword returns a digest without error, verifying
the same password against that fresh digest succeeds: CheckPassword
returns nil. -/
theorem checkPassword_of_hashPassword (kdf : KDF)
    (rnd : Nat → Option (List Nat)) (password : List Nat) (digest : HashStr)
    (h : HashPassword kdf rnd password = some digest) :
    CheckPassword kdf password digest = none := by
  unfold HashPassword createHash at h
  cases hr : rnd (Params.mk memory iterations parallelism saltLength hashLength).saltLength with
  | none => rw [hr] at h; simp at h
  | some salt =>
      rw [hr] at h
      simp only [Option.some.injEq] at h
      subst h
      simp [CheckPassword, comparePasswordAndHash]

/-- C6 witness: a concrete password hashed by the concrete model
verifies against its own fresh digest. -/
theorem checkPassword_of_hashPassword_witness :
    (HashPassword toyKDF toyRnd [1, 2] =
      some (HashStr.enc (Params.mk (19 * 1024) 2 1 16 32)
        (List.replicate 16 7) (List.replicate 32 227))) ∧
    CheckPassword toyKDF [1, 2]
      (HashStr.enc (Params.mk (19 * 1024) 2 1 16 32)
        (List.replicate 16 7) (List.replicate 32 227)) = none :=
  ⟨by decide, checkPassword_of_hashPassword toyKDF toyRnd [1, 2] _ (by decide)⟩

/-! Claim C7. -/

/-- C7: every HashPassword call uses the fixed process-wide parameters —
memory 19×1024 KiB, 2 iterations, parallelism 1, 16-byte salt, 32-byte
key — so any digest it produces embeds exactly those parameters, a
16-byte salt, and a 32-byte derived key (given that the random source
yields as many bytes as requested and the KDF honours the requested key
length). -/
theorem hashPassword_fixed_params (kdf : KDF)
    (rnd : Nat → Option (List Nat)) (password : List Nat)
    (params : Params) (salt key : List Nat)
    (hrnd : ∀ n bs, rnd n = some bs → bs.length = n)
    (hkdf : ∀ p s ps, (kdf.idKey p s ps).length = ps.keyLength)
    (h : HashPassword kdf rnd password = some (HashStr.enc params salt key)) :
    params = Params.mk (19 * 1024) 2 1 16 32 ∧
      salt.length = 16 ∧ key.length = 32 := by
  unfold HashPassword createHash at h
  cases hr : rnd (Params.mk memory iterations parallelism saltLength hashLength).saltLength with
  | none => rw [hr] at h; simp at h
  | some s =>
      rw [hr] at h
      simp only [Option.some.injEq, HashStr.enc.injEq] at h
      obtain ⟨hpar, hs, hkey⟩ := h
      refine ⟨hpar.symm, ?_, ?_⟩
      · rw [← hs]
        exact hrnd _ s hr
      · rw [← hkey]
        exact hkdf password s _

/-- C7 witness: concrete sources satisfying the well-formedness
hypotheses, and a concrete digest whose parameters, salt length and key
length come out as claimed. -/
theorem hashPassword_fixed_params_witness :
    (HashPassword toyKDF toyRnd [1] =
      some (HashStr.enc (Params.mk (19 * 1024) 2 1 16 32)
        (List.replicate 16 7) (List.replicate 32 225))) ∧
    (Params.mk (19 * 1024) 2 1 16 32 = Params.mk (19 * 1024) 2 1 16 32 ∧
      (List.replicate 16 7).length = 16 ∧
      (List.replicate (32 : Nat) (225 : Nat)).length = 32) :=
  ⟨by decide,
    hashPassword_fixed_params toyKDF toyRnd [1] _ _ _
      (fun n bs hb => by
        simp only [toyRnd, Option.some.injEq] at hb
        rw [← hb]
        simp)
      (fun p s ps => by simp [toyKDF])
      (by decide)⟩

/-! Claim C1. -/

/-- C1: with non-empty email and password, login answers 200 (Accepted)
iff the lookup returned a row AND CheckPassword reported a match against
its stored digest; every other combination — account missing, password
wrong, digest malformed, lookup failure — produces the single response
401 "Incorrect email or password". -/
theorem login_accept_iff (kdf : KDF) (dummyHash : HashStr)
    (store : LookupResult) (email password : List Nat)
    (he : email ≠ []) (hp : password ≠ []) :
    ((login kdf dummyHash store email password).response.status = 200 ↔
      ∃ u, store = LookupResult.found u ∧
        CheckPassword kdf password u.hashedPassword = none) ∧
    ((login kdf dummyHash store email password).response.status ≠ 200 →
      (login kdf dummyHash store email password).response =
        respondWithError 401 Msg.incorrectEmailOrPassword) := by
  cases store with
  | found u =>
      rw [login_found_eq kdf dummyHash u email password he hp]
      by_cases hc : CheckPassword kdf password u.hashedPassword = none
      · simp [hc, respondWithJSON, respondWithError]
      · simp [hc, respondWithError]
  | failure e =>
      rw [login_lookup_failure_eq kdf dummyHash e email password he hp]
      simp [respondWithError]

/-- C1 witness: a concrete matching login is Accepted with status 200,
and a concrete wrong-password login gets the 401 rejection. -/
theorem login_accept_iff_witness :
    ([97] ≠ ([] : List Nat) ∧ [2] ≠ ([] : List Nat)) ∧
    (((login toyKDF toyDummyHash (LookupResult.found toyUser1) [97] [2]).response.status = 200 ↔
      ∃ u, LookupResult.found toyUser1 = LookupResult.found u ∧
        CheckPassword toyKDF [2] u.hashedPassword = none) ∧
    ((login toyKDF toyDummyHash (LookupResult.found toyUser1) [97] [2]).response.status ≠ 200 →
      (login toyKDF toyDummyHash (LookupResult.found toyUser1) [97] [2]).response =
        respondWithError 401 Msg.incorrectEmailOrPassword)) :=
  ⟨by decide,
    login_accept_iff toyKDF toyDummyHash (LookupResult.found toyUser1) [97] [2]
      (by decide) (by decide)⟩

/-! Claim C2. -/

/-- C2: a rejection caused by an absent account performs exactly one
CheckPassword call, against the process-wide dummy digest; a rejection
caused by a wrong password (CheckPassword non-nil on the stored digest)
also performs exactly one CheckPassword call, against the stored digest —
so the unknown-email and wrong-password paths have the same
KDF-invocation count, one each. -/
theorem login_one_kdf_comparison (kdf : KDF) (dummyHash : HashStr)
    (email password : List Nat) (he : email ≠ []) (hp : password ≠ []) :
    ((login kdf dummyHash (LookupResult.failure DBErr.noRows) email password).checkedHashes =
        [dummyHash] ∧
      (login kdf dummyHash (LookupResult.failure DBErr.noRows) email password).response =
        respondWithError 401 Msg.incorrectEmailOrPassword) ∧
    (∀ u, CheckPassword kdf password u.hashedPassword ≠ none →
      (login kdf dummyHash (LookupResult.found u) email password).checkedHashes =
          [u.hashedPassword] ∧
        (login kdf dummyHash (LookupResult.found u) email password).response =
          respondWithError 401 Msg.incorrectEmailOrPassword) := by
  constructor
  · rw [login_lookup_failure_eq kdf dummyHash DBErr.noRows email password he hp]
    exact ⟨rfl, rfl⟩
  · intro u hc
    rw [login_found_eq kdf dummyHash u email password he hp, if_neg hc]
    exact ⟨rfl, rfl⟩

/-- C2 witness: concrete unknown-email and wrong-password rejections each
record exactly one digest comparison. -/
theorem login_one_kdf_comparison_witness :
    ([97] ≠ ([] : List Nat) ∧ [3] ≠ ([] : List Nat)) ∧
    (((login toyKDF toyDummyHash (LookupResult.failure DBErr.noRows) [97] [3]).checkedHashes =
        [toyDummyHash] ∧
      (login toyKDF toyDummyHash (LookupResult.failure DBErr.noRows) [97] [3]).response =
        respondWithError 401 Msg.incorrectEmailOrPassword) ∧
    (∀ u, CheckPassword toyKDF [3] u.hashedPassword ≠ none →
      (login toyKDF toyDummyHash (LookupResult.found u) [97] [3]).checkedHashes =
          [u.hashedPassword] ∧
        (login toyKDF toyDummyHash (LookupResult.found u) [97] [3]).response =
          respondWithError 401 Msg.incorrectEmailOrPassword)) :=
  ⟨by decide,
    login_one_kdf_comparison toyKDF toyDummyHash [97] [3] (by decide) (by decide)⟩

/-! Claim C3. -/

/-- C3 counterexample: on a lookup failure other than no-rows (store
unavailable), the handler DOES proceed to verification (one comparison
against the dummy digest is recorded) and DOES report the ordinary
Rejected response 401 "Incorrect email or password" — not a distinct
infrastructure error. -/
theorem login_store_error_cex :
    (login toyKDF toyDummyHash (LookupResult.failure DBErr.other) [1] [2]).response =
      respondWithError 401 Msg.incorrectEmailOrPassword ∧
    (login toyKDF toyDummyHash (LookupResult.failure DBErr.other) [1] [2]).checkedHashes =
      [toyDummyHash] := by
  decide

/-- C3 (amended): on any lookup failure other than no-rows (e.g. storage
unavailable), the handler still proceeds to verification against the
dummy digest and returns exactly the same Rejected response, 401
"Incorrect email or password", as the unknown-email path; no distinct
infrastructure error is surfaced from login. -/
theorem login_store_error_collapsed (kdf : KDF) (dummyHash : HashStr)
    (email password : List Nat) (he : email ≠ []) (hp : password ≠ []) :
    login kdf dummyHash (LookupResult.failure DBErr.other) email password =
      LoginTrace.mk (respondWithError 401 Msg.incorrectEmailOrPassword)
        [email] [dummyHash] ∧
    login kdf dummyHash (LookupResult.failure DBErr.other) email password =
      login kdf dummyHash (LookupResult.failure DBErr.noRows) email password := by
  rw [login_lookup_failure_eq kdf dummyHash DBErr.other email password he hp,
    login_lookup_failure_eq kdf dummyHash DBErr.noRows email password he hp]
  exact ⟨rfl, rfl⟩

/-- C3 (amended) witness at a concrete store-unavailable login. -/
theorem login_store_error_collapsed_witness :
    ([5] ≠ ([] : List Nat) ∧ [6] ≠ ([] : List Nat)) ∧
    (login toyKDF toyDummyHash (LookupResult.failure DBErr.other) [5] [6] =
      LoginTrace.mk (respondWithError 401 Msg.incorrectEmailOrPassword)
        [[5]] [toyDummyHash] ∧
    login toyKDF toyDummyHash (LookupResult.failure DBErr.other) [5] [6] =
      login toyKDF toyDummyHash (LookupResult.failure DBErr.noRows) [5] [6]) :=
  ⟨by decide,
    login_store_error_collapsed toyKDF toyDummyHash [5] [6] (by decide) (by decide)⟩

/-! Claim C8. -/

/-- A concrete store reply for createUser evaluation: every insert
succeeds and yields `toyUser1`. -/
def toyDB : CreateUserParams → Option User := fun _ => some toyUser1

/-- C8: with non-empty credentials, if password hashing fails the
registration handler answers the internal error 500 "Failed to hash
user's password" and attempts no store write at all; and every store
write the handler ever attempts carries the digest HashPassword produced
for the supplied password (and the supplied email) — never the raw
password. -/
theorem createUser_fails_closed (kdf : KDF) (rnd : Nat → Option (List Nat))
    (db : CreateUserParams → Option User) (email password : List Nat)
    (he : email ≠ []) (hp : password ≠ []) :
    (HashPassword kdf rnd password = none →
      createUser kdf rnd db email password =
        CreateUserTrace.mk (respondWithError 500 Msg.failedToHashUsersPassword)
          [password] []) ∧
    (∀ p, p ∈ (createUser kdf rnd db email password).writes →
      HashPassword kdf rnd password = some p.hashedPassword ∧
        p.email = email) := by
  unfold createUser
  rw [if_neg (by tauto)]
  cases hh : HashPassword kdf rnd password with
  | none => simp
  | some hash =>
      refine ⟨by simp, ?_⟩
      intro p hmem
      cases hdb : db (CreateUserParams.mk email hash) with
      | none =>
          simp only [hdb, List.mem_singleton] at hmem
          subst hmem
          exact ⟨rfl, rfl⟩
      | some dbUser =>
          simp only [hdb, List.mem_singleton] at hmem
          subst hmem
          exact ⟨rfl, rfl⟩

/-- C8 witness: with a failing random source, hashing fails and the
concrete registration run stores nothing and answers 500. -/
theorem createUser_fails_closed_witness :
    ([97] ≠ ([] : List Nat) ∧ [2] ≠ ([] : List Nat)) ∧
    ((HashPassword toyKDF toyRndFail [2] = none →
      createUser toyKDF toyRndFail toyDB [97] [2] =
        CreateUserTrace.mk (respondWithError 500 Msg.failedToHashUsersPassword)
          [[2]] []) ∧
    (∀ p, p ∈ (createUser toyKDF toyRndFail toyDB [97] [2]).writes →
      HashPassword toyKDF toyRndFail [2] = some p.hashedPassword ∧
        p.email = [97])) :=
  ⟨by decide,
    createUser_fails_closed toyKDF toyRndFail toyDB [97] [2] (by decide) (by decide)⟩

/-! Claim C9. -/

/-- C9: a successful login's response is 200 with a body holding exactly
the user's id, created_at, updated_at and email — the stored digest never
appears — and two stored digests that both match the supplied password
produce identical responses (the response is independent of the digest
beyond the match decision). -/
theorem login_success_no_hash_leak (kdf : KDF) (dummyHash : HashStr)
    (u1 u2 : User) (email password : List Nat)
    (he : email ≠ []) (hp : password ≠ [])
    (hid : u1.id = u2.id) (hca : u1.createdAt = u2.createdAt)
    (hua : u1.updatedAt = u2.updatedAt) (hem : u1.email = u2.email)
    (h1 : CheckPassword kdf password u1.hashedPassword = none)
    (h2 : CheckPassword kdf password u2.hashedPassword = none) :
    (login kdf dummyHash (LookupResult.found u1) email password).response =
      Response.mk 200 (RespBody.user
        (ResponseUser.mk u1.id u1.createdAt u1.updatedAt u1.email)) ∧
    (login kdf dummyHash (LookupResult.found u1) email password).response =
      (login kdf dummyHash (LookupResult.found u2) email password).response := by
  rw [login_found_eq kdf dummyHash u1 email password he hp,
    login_found_eq kdf dummyHash u2 email password he hp,
    if_pos h1, if_pos h2]
  refine ⟨rfl, ?_⟩
  simp [respondWithJSON, ResponseFrom, hid, hca, hua, hem]

/-- C9 witness: two concrete users differing only in their stored digest,
both matching password [2], yield the identical 200 response carrying
only the four public fields. -/
theorem login_success_no_hash_leak_witness :
    (toyUser1.hashedPassword ≠ toyUser2.hashedPassword ∧
      CheckPassword toyKDF [2] toyUser1.hashedPassword = none ∧
      CheckPassword toyKDF [2] toyUser2.hashedPassword = none) ∧
    ((login toyKDF toyDummyHash (LookupResult.found toyUser1) [97] [2]).response =
      Response.mk 200 (RespBody.user
        (ResponseUser.mk toyUser1.id toyUser1.createdAt toyUser1.updatedAt toyUser1.email)) ∧
    (login toyKDF toyDummyHash (LookupResult.found toyUser1) [97] [2]).response =
      (login toyKDF toyDummyHash (LookupResult.found toyUser2) [97] [2]).response) :=
  ⟨by decide,
    login_success_no_hash_leak toyKDF toyDummyHash toyUser1 toyUser2 [97] [2]
      (by decide) (by decide) rfl rfl rfl rfl (by decide) (by decide)⟩

/-! Claim C10. -/

/-- C10: when the supplied email or password is empty, both the login and
the registration handler answer 400 "User must provide email and
password" with no store lookup, no KDF invocation and no store write
recorded. -/
theorem empty_credentials_rejected_early (kdf : KDF) (dummyHash : HashStr)
    (store : LookupResult) (rnd : Nat → Option (List Nat))
    (db : CreateUserParams → Option User) (email password : List Nat)
    (h : email = [] ∨ password = []) :
    login kdf dummyHash store email password =
      LoginTrace.mk (respondWithError 400 Msg.userMustProvideEmailAndPassword) [] [] ∧
    createUser kdf rnd db email password =
      CreateUserTrace.mk (respondWithError 400 Msg.userMustProvideEmailAndPassword) [] [] := by
  unfold login createUser
  rw [if_pos h, if_pos h]
  exact ⟨rfl, rfl⟩

/-- C10 witness: a concrete request with an empty password is rejected
with 400 and empty effect traces by both handlers. -/
theorem empty_credentials_rejected_early_witness :
    ([97] = ([] : List Nat) ∨ ([] : List Nat) = ([] : List Nat)) ∧
    (login toyKDF toyDummyHash (LookupResult.failure DBErr.noRows) [97] [] =
      LoginTrace.mk (respondWithError 400 Msg.userMustProvideEmailAndPassword) [] [] ∧
    createUser toyKDF toyRnd toyDB [97] [] =
      CreateUserTrace.mk (respondWithError 400 Msg.userMustProvideEmailAndPassword) [] []) :=
  ⟨by decide,
    empty_credentials_rejected_early toyKDF toyDummyHash
      (LookupResult.failure DBErr.noRows) toyRnd toyDB [97] [] (by decide)⟩

/-! Claim C5. -/

/-- C5: the auth initializer is the single step between startup and
serving — if it fails (fatal hashing error) the process serves nothing;
if it succeeds, the dummy digest it fixes is derived by HashPassword from
the 32 random bytes crypto/rand.Read supplied (so from a 32-byte random
plaintext), and every request of the whole run — in particular every
unknown-email login — is handled against that same, unmodified dummy
digest. -/
theorem initialize_once_fixed_dummy (kdf : KDF) (randRead : Nat → List Nat)
    (rnd : Nat → Option (List Nat)) (requests : List LoginRequest)
    (hrr : ∀ n, (randRead n).length = n) :
    (Initialize kdf randRead rnd = none →
      serverRun kdf randRead rnd requests = none) ∧
    (randRead 32).length = 32 ∧
    (∀ dh, Initialize kdf randRead rnd = some dh →
      (∃ salt, rnd saltLength = some salt ∧
        dh = HashStr.enc (Params.mk memory iterations parallelism saltLength hashLength)
          salt (kdf.idKey (randRead 32) salt
            (Params.mk memory iterations parallelism saltLength hashLength))) ∧
      serverRun kdf randRead rnd requests =
        some (requests.map (fun rq => login kdf dh rq.store rq.email rq.password)) ∧
      (∀ rq, rq ∈ requests → rq.store = LookupResult.failure DBErr.noRows →
        rq.email ≠ [] → rq.password ≠ [] →
        (login kdf dh rq.store rq.email rq.password).checkedHashes = [dh])) := by
  refine ⟨?_, hrr 32, ?_⟩
  · intro h
    unfold serverRun
    rw [h]
  · intro dh hdh
    refine ⟨?_, ?_, ?_⟩
    · unfold Initialize HashPassword createHash at hdh
      have hps : (Params.mk memory iterations parallelism saltLength hashLength).saltLength
          = saltLength := rfl
      rw [hps] at hdh
      cases hr : rnd saltLength with
      | none => rw [hr] at hdh; simp at hdh
      | some s =>
          rw [hr] at hdh
          simp only [Option.some.injEq] at hdh
          exact ⟨s, rfl, hdh.symm⟩
    · unfold serverRun
      rw [hdh]
    · intro rq hmem hstore hemail hpass
      rw [hstore, login_lookup_failure_eq kdf dh DBErr.noRows rq.email rq.password hemail hpass]

/-- C5 witness: with concrete sources, startup succeeds, the run serves
the one concrete unknown-email request against the initializer's digest,
and that request's single comparison is against that digest. -/
theorem initialize_once_fixed_dummy_witness :
    (∀ n, (toyRandRead n).length = n) ∧
    ((Initialize toyKDF toyRandRead toyRnd = none →
      serverRun toyKDF toyRandRead toyRnd
        [LoginRequest.mk (LookupResult.failure DBErr.noRows) [8] [9]] = none) ∧
    (toyRandRead 32).length = 32 ∧
    (∀ dh, Initialize toyKDF toyRandRead toyRnd = some dh →
      (∃ salt, toyRnd saltLength = some salt ∧
        dh = HashStr.enc (Params.mk memory iterations parallelism saltLength hashLength)
          salt (toyKDF.idKey (toyRandRead 32) salt
            (Params.mk memory iterations parallelism saltLength hashLength))) ∧
      serverRun toyKDF toyRandRead toyRnd
          [LoginRequest.mk (LookupResult.failure DBErr.noRows) [8] [9]] =
        some ([LoginRequest.mk (LookupResult.failure DBErr.noRows) [8] [9]].map
          (fun rq => login toyKDF dh rq.store rq.email rq.password)) ∧
      (∀ rq, rq ∈ [LoginRequest.mk (LookupResult.failure DBErr.noRows) [8] [9]] →
        rq.store = LookupResult.failure DBErr.noRows →
        rq.email ≠ [] → rq.password ≠ [] →
        (login toyKDF dh rq.store rq.email rq.password).checkedHashes = [dh]))) :=
  ⟨fun n => by simp [toyRandRead],
    initialize_once_fixed_dummy toyKDF toyRandRead toyRnd
      [LoginRequest.mk (LookupResult.failure DBErr.noRows) [8] [9]]
      (fun n => by simp [toyRandRead])⟩

end HttpServers
